import Mathlib

/-!
Verification of the SMM publish orchestrator (frontend sources).

The development shallowly embeds the data model (types.ts), the mock API
client, the real API client (fetchAPI, withRetry, publishPost, deletePost,
checkBackendHealth, isBackendAvailable) and the Posts page publish controls.
Asynchronous operations are modelled as pure functions over an explicit
stream of network outcomes; promise rejection is modelled with Except, the
rejected Error message as a String.  Wait times performed between retry
attempts are collected into an explicit list.
-/

namespace SMM

/-- Post status, from types.ts: "draft" | "posted" | "failed" | "scheduled". -/
inductive Status where
  | draft
  | posted
  | failed
  | scheduled
deriving DecidableEq, BEq, Repr

/-- Post record, from types.ts.  Optional string fields become Option String. -/
structure Post where
  id : Nat
  content : String
  image_url : Option String := none
  video_url : Option String := none
  platforms : List String := []
  status : Status
  word_count : Nat := 0
  posted_time : Option String := none
  scheduled_time : Option String := none
  error_message : Option String := none
  created_at : String := ""
deriving DecidableEq, BEq, Repr

/-- Partial Post payload handed to createPost (Partial of the Post fields
actually read by the mock createPost). -/
structure PostData where
  content : Option String := none
  image_url : Option String := none
  video_url : Option String := none
  platforms : Option (List String) := none
  scheduled_time : Option String := none

/-- JavaScript truthiness of an optional string: undefined and the empty
string are falsy. -/
def jsTruthyStr : Option String → Bool
  | none => false
  | some s => !(s == "")

/-- Boolean form of the spec invariant: status = posted iff the posted
timestamp is set, and status = failed iff error_message is non-empty. -/
def errMsgNonempty (p : Post) : Bool :=
  match p.error_message with
  | some m => !(m == "")
  | none => false

def postInvariant (p : Post) : Bool :=
  ((p.status == Status.posted) == p.posted_time.isSome) &&
  ((p.status == Status.failed) == errMsgNonempty p)

namespace MockApi

/-- Mock api.createPost: status is "scheduled" when a truthy scheduled_time
is supplied, else "draft"; word_count counts space-separated pieces of the
content; posted_time and error_message are left unset. -/
def createPost (postData : PostData) (newId : Nat) (now : String) : Post :=
  let content := postData.content.getD ""
  { id := newId
    content := content
    image_url := postData.image_url
    video_url := postData.video_url
    platforms := postData.platforms.getD []
    status := if jsTruthyStr postData.scheduled_time then Status.scheduled else Status.draft
    scheduled_time := postData.scheduled_time
    word_count := (content.split (fun c => c == ' ')).length
    created_at := now }

/-- Mock api.deletePost: findIndex on the id, splice when found; on an
unknown id nothing happens and the promise still resolves (the Except error
channel models promise rejection and is never used by this function). -/
def deletePost (posts : List Post) (id : Nat) : Except String (List Post) :=
  match posts.findIdx? (fun p => p.id == id) with
  | some index => Except.ok (posts.eraseIdx index)
  | none => Except.ok posts

/-- Success branch of the mock api.publishPost: status posted, posted_time
set to now, error_message cleared. -/
def publishSuccessUpdate (p : Post) (now : String) : Post :=
  { p with status := Status.posted, posted_time := some now, error_message := none }

/-- Failure branch of the mock api.publishPost (the Math.random simulated
failure): status failed and error_message set; posted_time is not touched. -/
def publishFailUpdate (p : Post) : Post :=
  { p with status := Status.failed
           error_message := some "Simulated timeout error from provider." }

/-- Mock api.publishPost over the post list: the targeted post is updated in
place; when the id is unknown nothing happens and the promise resolves.  The
fail flag stands for the Math.random draw; on failure the promise rejects
after the mutation. -/
def publishPost (posts : List Post) (id : Nat) (fail : Bool) (now : String) :
    List Post × Except String Unit :=
  match posts.findIdx? (fun p => p.id == id) with
  | none => (posts, Except.ok ())
  | some index =>
    match posts[index]? with
    | none => (posts, Except.ok ())
    | some p =>
      if fail then
        (posts.set index (publishFailUpdate p), Except.error "Simulated failure")
      else
        (posts.set index (publishSuccessUpdate p now), Except.ok ())

end MockApi

/-- An HTTP response as observed by fetchAPI: the ok flag, the numeric
status code, the outcome of parsing the error body (outer none: the
response.json() call on the error path rejected, which the code turns into
an empty object via the catch fallback; inner Option: the detail field of
the parsed body), and the decoded success body. -/
structure HttpResponse (α : Type) where
  ok : Bool
  status : Nat
  errorDetail : Option (Option String) := none
  body : α

/-- JavaScript a || b on an optional string a: undefined and the empty
string fall through to b. -/
def jsOr (a : Option String) (b : String) : String :=
  match a with
  | some s => if s == "" then b else s
  | none => b

namespace RealApi

/-- fetchAPI: a connection-level fetch failure propagates as a rejection;
a non-ok response rejects with the parsed detail message or the generic
"API Error: status" fallback; an ok response resolves with the body. -/
def fetchAPI {α : Type} (fetchResult : Except String (HttpResponse α)) : Except String α :=
  match fetchResult with
  | Except.error e => Except.error e
  | Except.ok response =>
    if response.ok then
      Except.ok response.body
    else
      let errorData : Option String := response.errorDetail.getD none
      Except.error (jsOr errorData ("API Error: " ++ toString response.status))

/-- Loop body of withRetry.  The source iterates attempt from 0 while
attempt < maxRetries; here the loop is driven structurally by
remaining = maxRetries - attempt, with the attempt index and the lastError
variable threaded through unchanged.  fn gives the outcome of each attempt,
indexed by the attempt number.  The result carries the settled value, the
number of invocations of fn, and the list of backoff waits performed
(delayMs * 2 ^ attempt, performed only when attempt < maxRetries - 1,
which is remaining > 0 here). -/
def retryLoop {α : Type} (fn : Nat → Except String α) (delayMs : Nat)
    (attempt : Nat) (lastError : Option String) :
    Nat → Except String α × Nat × List Nat
  | 0 => (Except.error (lastError.getD "All retries failed"), 0, [])
  | remaining + 1 =>
    match fn attempt with
    | Except.ok v => (Except.ok v, 1, [])
    | Except.error e =>
      let rest := retryLoop fn delayMs (attempt + 1) (some e) remaining
      (rest.1, rest.2.1 + 1,
        if remaining > 0 then delayMs * 2 ^ attempt :: rest.2.2 else rest.2.2)

/-- withRetry wrapper: attempts fn while attempt < maxRetries, waiting
delayMs * 2 ^ attempt between attempts, finally rethrowing the last error
(or an "All retries failed" Error when the loop never ran, which is what a
non-positive maxRetries produces).  maxRetries is kept as an Int so that
non-positive arguments behave as in the source. -/
def withRetry {α : Type} (fn : Nat → Except String α) (maxRetries : Int := 3)
    (delayMs : Nat := 1000) : Except String α × Nat × List Nat :=
  retryLoop fn delayMs 0 none maxRetries.toNat

/-- twitter_result payload of the publish endpoint response. -/
structure TwitterResult where
  success : Bool
  post_id : Option String := none
  url : Option String := none
  error : Option String := none

/-- Response body of POST /posts/id/publish. -/
structure PublishResponse where
  success : Bool
  post : Post
  twitter_result : TwitterResult

/-- api.publishPost: the POST /posts/id/publish exchange wrapped in
withRetry with maxRetries 3 and initial delay 2000.  The stream gives the
network outcome of each attempt. -/
def publishPost (responses : Nat → Except String (HttpResponse PublishResponse)) :
    Except String PublishResponse × Nat × List Nat :=
  withRetry (fun attempt => fetchAPI (responses attempt)) 3 2000

/-- api.deletePost: a single DELETE /posts/id exchange through fetchAPI,
with no retry and no call to the remote platform. -/
def deletePost {α : Type} (response : Except String (HttpResponse α)) : Except String α :=
  fetchAPI response

end RealApi

/-- Module-level backendAvailable variable of the api service (the lastKnown
health cache); null before the first check. -/
structure HealthState where
  backendAvailable : Option Bool
deriving DecidableEq, Repr

/-- checkBackendHealth: fetch of GET /health with a 3000 ms AbortSignal
timeout.  An ok/non-ok response stores and returns response.ok; any
rejection (connection failure, timeout, abort) is caught and stored and
returned as false.  The function is total: no outcome escapes as an
exception. -/
def checkBackendHealth (fetchResult : Except String (HttpResponse Unit))
    (_s : HealthState) : Bool × HealthState :=
  match fetchResult with
  | Except.ok response => (response.ok, { backendAvailable := some response.ok })
  | Except.error _ => (false, { backendAvailable := some false })

/-- isBackendAvailable: reads the cached value and leaves the state alone. -/
def isBackendAvailable (s : HealthState) : Option Bool × HealthState :=
  (s.backendAvailable, s)

namespace PostsPage

/-- The publish button of the Posts page is rendered only for draft and
failed posts. -/
def publishButtonShown (p : Post) : Bool :=
  p.status == Status.draft || p.status == Status.failed

/-- The rendered publish button is disabled while this post is already
publishing or while the backend is known offline. -/
def publishButtonDisabled (publishingId : Option Nat) (backendOnline : Bool)
    (p : Post) : Bool :=
  publishingId == some p.id || !backendOnline

end PostsPage

/-- Declared content type test s.startswith(pre), computed over the
character list so that concrete instances evaluate inside proofs. -/
def strStartsWith (s pre : String) : Bool :=
  pre.data.isPrefixOf s.data

namespace BackendModel

/-- Error taxonomy of the publish endpoint, from the spec. -/
inductive PublishError where
  | notFound
  | invalidTransition
deriving DecidableEq, Repr

/-- Outcome of one call of the publish endpoint: the settled result and the
number of network calls issued to the remote platform. -/
structure PublishAttempt where
  result : Except PublishError Post
  platformCalls : Nat
deriving Repr

/-- Modelled from the spec: the POST /posts/id/publish handler lives in
backend/main.py, which is part of the repository but not among the frontend
sources; only its caller api.publishPost is.  Per spec section 4.3 the
handler fails fast with NotFound when the id is unknown and with
InvalidTransition when the post is already posted, in both cases before any
call to the remote platform; otherwise it performs exactly one platform
call and settles the post as posted or failed. -/
def publishEndpoint (posts : List Post) (id : Nat)
    (remote : Except String String) (now : String) : PublishAttempt :=
  match posts.find? (fun p => p.id == id) with
  | none => { result := Except.error PublishError.notFound, platformCalls := 0 }
  | some p =>
    if p.status == Status.posted then
      { result := Except.error PublishError.invalidTransition, platformCalls := 0 }
    else
      match remote with
      | Except.ok _url =>
        { result := Except.ok { p with status := Status.posted
                                       posted_time := some now
                                       error_message := none }
          platformCalls := 1 }
      | Except.error msg =>
        { result := Except.ok { p with status := Status.failed
                                       error_message := some msg }
          platformCalls := 1 }

/-- Media kind, derived from the declared content type. -/
inductive MediaKind where
  | image
  | video
deriving DecidableEq, Repr

/-- Staging failures, from the spec taxonomy. -/
inductive StageError where
  | unsupportedType
  | tooLarge (limitBytes : Nat)
deriving DecidableEq, Repr

/-- A staged media asset with its local preview handle. -/
structure MediaAsset where
  kind : MediaKind
  sizeBytes : Nat
  contentType : String
  stagedRef : String
deriving DecidableEq, Repr

def imageSizeLimit : Nat := 5 * 1024 * 1024

def videoSizeLimit : Nat := 512 * 1024 * 1024

/-- Modelled from the spec: the media validation of the upload endpoint
lives in backend/main.py, which is part of the repository but not among the
frontend sources; only its caller api.uploadMedia is.  Per spec section 4.4
and the repository README, the declared content type must start with image/
or video/ (else UnsupportedType), the size ceiling is 5 MB for images and
512 MB for videos (else TooLarge carrying the exceeded limit), and a
conforming file yields a non-empty local preview handle with no network
call. -/
def stage (contentType : String) (sizeBytes : Nat) : Except StageError MediaAsset :=
  if strStartsWith contentType "image/" then
    if sizeBytes > imageSizeLimit then
      Except.error (StageError.tooLarge imageSizeLimit)
    else
      Except.ok { kind := MediaKind.image, sizeBytes := sizeBytes
                  contentType := contentType
                  stagedRef := "data:" ++ contentType ++ ";preview" }
  else if strStartsWith contentType "video/" then
    if sizeBytes > videoSizeLimit then
      Except.error (StageError.tooLarge videoSizeLimit)
    else
      Except.ok { kind := MediaKind.video, sizeBytes := sizeBytes
                  contentType := contentType
                  stagedRef := "data:" ++ contentType ++ ";preview" }
  else
    Except.error StageError.unsupportedType

end BackendModel

/-- Fixture mirroring MOCK_POSTS[0]: a posted post with posted_time set. -/
def mockPost1 : Post :=
  { id := 1
    content := "Just launched our new product line!"
    platforms := ["twitter", "linkedin"]
    status := Status.posted
    word_count := 12
    posted_time := some "2024-01-01T00:00:00.000Z"
    created_at := "2023-12-31T00:00:00.000Z" }

/-- Fixture mirroring MOCK_POSTS[1]: a draft post. -/
def mockPost2 : Post :=
  { id := 2
    content := "Behind the scenes at the office today."
    image_url := some "https://picsum.photos/800/600"
    platforms := ["instagram", "facebook"]
    status := Status.draft
    word_count := 7
    created_at := "2024-01-02T00:00:00.000Z" }

/-- A concrete attempt stream that fails twice and then succeeds. -/
def failTwiceThenOk : Nat → Except String Nat :=
  fun attempt => if attempt < 2 then Except.error "ECONNREFUSED" else Except.ok 7

/-- A concrete 400 rejection with a duplicate-content detail message, as the
publish transport would observe it for a deterministic client rejection. -/
def rejected400 : HttpResponse RealApi.PublishResponse :=
  { ok := false
    status := 400
    errorDetail := some (some "duplicate content")
    body := { success := false
              post := mockPost2
              twitter_result := { success := false } } }

/-- A 500 response whose body could not be parsed. -/
def resp500 : HttpResponse Nat :=
  { ok := false, status := 500, errorDetail := none, body := 0 }

/-! Helper lemmas about the retry loop and list erasure. -/

theorem mem_of_mem_eraseIdx {α : Type} {x : α} :
    ∀ {l : List α} {i : Nat}, x ∈ l.eraseIdx i → x ∈ l := by
  intro l
  induction l with
  | nil => intro i h; simp [List.eraseIdx] at h
  | cons y ys ih =>
    intro i h
    cases i with
    | zero =>
      exact List.mem_cons_of_mem y h
    | succ j =>
      rcases List.mem_cons.mp h with h1 | h2
      · exact h1 ▸ List.mem_cons_self y ys
      · exact List.mem_cons_of_mem y (ih h2)

theorem retryLoop_invocations_le {α : Type} (fn : Nat → Except String α) (d : Nat) :
    ∀ (remaining a : Nat) (lastErr : Option String),
      (RealApi.retryLoop fn d a lastErr remaining).2.1 ≤ remaining := by
  intro remaining
  induction remaining with
  | zero => intro a lastErr; simp [RealApi.retryLoop]
  | succ n ih =>
    intro a lastErr
    simp only [RealApi.retryLoop]
    cases h : fn a with
    | ok v => simp
    | error e =>
      simp only []
      have := ih (a + 1) (some e)
      omega

theorem retryLoop_invocations_pos {α : Type} (fn : Nat → Except String α)
    (d a n : Nat) (lastErr : Option String) :
    1 ≤ (RealApi.retryLoop fn d a lastErr (n + 1)).2.1 := by
  simp only [RealApi.retryLoop]
  cases h : fn a with
  | ok v => simp
  | error e => simp

theorem retryLoop_waits {α : Type} (fn : Nat → Except String α) (d : Nat) :
    ∀ (remaining a : Nat) (lastErr : Option String),
      (RealApi.retryLoop fn d a lastErr remaining).2.2
        = (List.range ((RealApi.retryLoop fn d a lastErr remaining).2.1 - 1)).map
            (fun k => d * 2 ^ (a + k)) := by
  intro remaining
  induction remaining with
  | zero => intro a lastErr; simp [RealApi.retryLoop]
  | succ n ih =>
    intro a lastErr
    simp only [RealApi.retryLoop]
    cases h : fn a with
    | ok v => simp
    | error e =>
      simp only []
      cases n with
      | zero => simp [RealApi.retryLoop]
      | succ m =>
        have hpos := retryLoop_invocations_pos fn d (a + 1) m (some e)
        obtain ⟨j, hj⟩ : ∃ j, (RealApi.retryLoop fn d (a + 1) (some e) (m + 1)).2.1 = j + 1 :=
          ⟨(RealApi.retryLoop fn d (a + 1) (some e) (m + 1)).2.1 - 1, by omega⟩
        rw [ih (a + 1) (some e), hj]
        simp only [Nat.add_sub_cancel, Nat.succ_sub_one, gt_iff_lt, Nat.succ_pos, if_pos,
          List.range_succ_eq_map, List.map_cons, List.map_map]
        refine List.cons_eq_cons.mpr ⟨by rw [Nat.add_zero], ?_⟩
        apply List.map_congr_left
        intro k _
        simp only [Function.comp_apply]
        congr 1
        congr 1
        omega

/-- C3: withRetry invokes the operation at most maxAttempts times, the list
of waits performed is always baseDelay * 2 ^ k for 0-based wait index k (one
wait after every invocation except the last), and for an operation that
fails twice and then succeeds with maxAttempts 3 the wrapped call succeeds
after exactly 3 invocations with the second wait equal to twice the first. -/
theorem C3_retry_backoff_schedule :
    (∀ (fn : Nat → Except String Nat) (m : Int) (d : Nat),
        (RealApi.withRetry fn m d).2.1 ≤ m.toNat) ∧
    (∀ (fn : Nat → Except String Nat) (m : Int) (d : Nat),
        (RealApi.withRetry fn m d).2.2
          = (List.range ((RealApi.withRetry fn m d).2.1 - 1)).map
              (fun k => d * 2 ^ k)) ∧
    (∀ (fn : Nat → Except String Nat) (d : Nat) (e0 e1 : String) (v : Nat),
        fn 0 = Except.error e0 → fn 1 = Except.error e1 → fn 2 = Except.ok v →
        RealApi.withRetry fn 3 d = (Except.ok v, 3, [d, d * 2])) := by
  refine ⟨?_, ?_, ?_⟩
  · intro fn m d
    exact retryLoop_invocations_le fn d m.toNat 0 none
  · intro fn m d
    have := retryLoop_waits fn d m.toNat 0 none
    simpa [RealApi.withRetry] using this
  · intro fn d e0 e1 v h0 h1 h2
    show RealApi.retryLoop fn d 0 none ((3 : Int).toNat) = _
    simp [RealApi.retryLoop, h0, h1, h2]

/-- Witness for C3 at the concrete fail-twice-then-succeed stream. -/
theorem C3_witness :
    RealApi.withRetry failTwiceThenOk 3 100 = (Except.ok 7, 3, [100, 200]) := by
  have := C3_retry_backoff_schedule.2.2 failTwiceThenOk 100 "ECONNREFUSED" "ECONNREFUSED" 7
    (by rfl) (by rfl) (by rfl)
  simpa using this

/-- C10: with a non-positive maxRetries the loop body never runs, the
operation is never invoked, no wait is performed, and the call rejects with
the exact message "All retries failed". -/
theorem C10_zero_attempts :
    ∀ (fn : Nat → Except String Nat) (m : Int) (d : Nat), m ≤ 0 →
      RealApi.withRetry fn m d = (Except.error "All retries failed", 0, []) := by
  intro fn m d hm
  have h0 : m.toNat = 0 := Int.toNat_of_nonpos hm
  simp [RealApi.withRetry, h0, RealApi.retryLoop]

/-- Witness for C10 at maxRetries 0 and an operation that would succeed. -/
theorem C10_witness :
    RealApi.withRetry (fun _ => Except.ok 1) 0 1000
      = (Except.error "All retries failed", 0, []) :=
  C10_zero_attempts (fun _ => Except.ok 1) 0 1000 (by norm_num)

/-- C2 counterexample: the fixture mirroring MOCK_POSTS index 0 is posted
with posted_time set and satisfies the invariant, but after the failure
branch of the mock publishPost it has status failed while posted_time is
still set, violating status = posted iff the posted timestamp is set. -/
theorem C2_counterexample :
    postInvariant mockPost1 = true ∧
    postInvariant (MockApi.publishFailUpdate mockPost1) = false := by
  decide

/-- C2 (amended): the invariant holds after createPost, after the success
branch of publishPost and after deletePost unconditionally, and after the
failure branch of publishPost provided the post had no posted timestamp
(in particular for any post that was not already posted); the failure
branch never clears posted_time, which is the only way the invariant can
break. -/
theorem C2_status_invariant :
    (∀ (d : PostData) (newId : Nat) (now : String),
        postInvariant (MockApi.createPost d newId now) = true) ∧
    (∀ (p : Post) (now : String),
        postInvariant (MockApi.publishSuccessUpdate p now) = true) ∧
    (∀ p : Post, p.posted_time = none →
        postInvariant (MockApi.publishFailUpdate p) = true) ∧
    (∀ (posts : List Post) (id : Nat) (res : List Post),
        (∀ p, p ∈ posts → postInvariant p = true) →
        MockApi.deletePost posts id = Except.ok res →
        ∀ q, q ∈ res → postInvariant q = true) := by
  refine ⟨?_, ?_, ?_, ?_⟩
  · intro d newId now
    cases h : jsTruthyStr d.scheduled_time <;>
      simp [MockApi.createPost, postInvariant, errMsgNonempty, h] <;>
      exact ⟨rfl, rfl⟩
  · intro p now
    simp [MockApi.publishSuccessUpdate, postInvariant, errMsgNonempty]
    exact ⟨rfl, rfl⟩
  · intro p hp
    simp [MockApi.publishFailUpdate, postInvariant, errMsgNonempty, hp]
    exact ⟨rfl, rfl⟩
  · intro posts id res hinv hdel q hq
    unfold MockApi.deletePost at hdel
    cases hfind : posts.findIdx? (fun p => p.id == id) with
    | some i =>
      rw [hfind] at hdel
      cases hdel
      exact hinv q (mem_of_mem_eraseIdx hq)
    | none =>
      rw [hfind] at hdel
      cases hdel
      exact hinv q hq

/-- Witness for C2 at the draft fixture, which has no posted timestamp. -/
theorem C2_witness :
    postInvariant (MockApi.publishFailUpdate mockPost2) = true :=
  C2_status_invariant.2.2.1 mockPost2 rfl

/-- C1: the code does not implement the claimed tie-break.  Evaluating the
retry-wrapped publish transport at a backend that always answers HTTP 400
with detail "duplicate content" (a deterministic client-side rejection),
the operation is invoked 3 times, with backoff waits of 2000 and 4000 ms,
before the rejection is rethrown; the claim requires exactly 1 invocation. -/
theorem C1_blind_retry_three_attempts :
    RealApi.publishPost (fun _ => Except.ok rejected400)
      = (Except.error "duplicate content", 3, [2000, 4000]) := by
  rfl

/-- C4 counterexample: after a health check that observed a connection
failure the cache records the backend as offline, yet the publish call
still performs 3 network attempts (with backoff waits) instead of failing
with BackendUnavailable before any network call; no BackendUnavailable
path exists in the client. -/
theorem C4_counterexample :
    (checkBackendHealth (Except.error "connection refused")
        { backendAvailable := none }).2.backendAvailable = some false ∧
    RealApi.publishPost (fun _ => Except.error "Failed to fetch")
      = (Except.error "Failed to fetch", 3, [2000, 4000]) :=
  ⟨rfl, rfl⟩

/-- C4 (amended): the offline gate lives in the page, not in the client:
when the last health check reported the backend offline the Posts page
renders every publish button disabled, so no publish is initiated from the
UI and the post is left untouched; publishPost itself consults no health
state and always performs at least one network attempt once invoked. -/
theorem C4_ui_gate :
    (∀ (publishingId : Option Nat) (p : Post),
        PostsPage.publishButtonDisabled publishingId false p = true) ∧
    (∀ responses : Nat → Except String (HttpResponse RealApi.PublishResponse),
        1 ≤ (RealApi.publishPost responses).2.1) := by
  constructor
  · intro publishingId p
    simp [PostsPage.publishButtonDisabled]
  · intro responses
    exact retryLoop_invocations_pos _ 2000 0 2 none

/-- C5: the publish endpoint fails fast with NotFound on an unknown post id
and with InvalidTransition on a posted post, in both cases issuing no call
to the remote platform; in the page, a posted post is never rendered with a
publish button at all. -/
theorem C5_terminal_publish :
    (∀ (posts : List Post) (id : Nat) (remote : Except String String) (now : String),
        posts.find? (fun p => p.id == id) = none →
          BackendModel.publishEndpoint posts id remote now
            = { result := Except.error BackendModel.PublishError.notFound
                platformCalls := 0 }) ∧
    (∀ (posts : List Post) (id : Nat) (remote : Except String String) (now : String)
        (p : Post),
        posts.find? (fun q => q.id == id) = some p → p.status = Status.posted →
          BackendModel.publishEndpoint posts id remote now
            = { result := Except.error BackendModel.PublishError.invalidTransition
                platformCalls := 0 }) ∧
    (∀ p : Post, p.status = Status.posted → PostsPage.publishButtonShown p = false) := by
  refine ⟨?_, ?_, ?_⟩
  · intro posts id remote now h
    simp [BackendModel.publishEndpoint, h]
  · intro posts id remote now p h hs
    simp only [BackendModel.publishEndpoint, h, hs]
    rfl
  · intro p hs
    simp [PostsPage.publishButtonShown, hs]
    exact ⟨rfl, rfl⟩

/-- Witness for C5: publishing the posted fixture is rejected with
InvalidTransition, publishing an unknown id is rejected with NotFound. -/
theorem C5_witness :
    BackendModel.publishEndpoint [mockPost1] 1 (Except.ok "https://x/42") "now"
      = { result := Except.error BackendModel.PublishError.invalidTransition
          platformCalls := 0 } ∧
    BackendModel.publishEndpoint [mockPost1] 999 (Except.ok "https://x/42") "now"
      = { result := Except.error BackendModel.PublishError.notFound
          platformCalls := 0 } :=
  ⟨C5_terminal_publish.2.1 [mockPost1] 1 (Except.ok "https://x/42") "now" mockPost1
      rfl rfl,
   C5_terminal_publish.1 [mockPost1] 999 (Except.ok "https://x/42") "now" rfl⟩

/-- C6: on a non-ok response the rejection message is the detail field
parsed from the body when it is a non-empty string, and falls back to the
generic message carrying the numeric status code when the body could not
be parsed, has no detail field, or has an empty detail. -/
theorem C6_error_normalization :
    ∀ (resp : HttpResponse Nat), resp.ok = false →
      (∀ d, resp.errorDetail = some (some d) → d ≠ "" →
          RealApi.fetchAPI (Except.ok resp) = Except.error d) ∧
      ((resp.errorDetail = none ∨ resp.errorDetail = some none ∨
          resp.errorDetail = some (some "")) →
          RealApi.fetchAPI (Except.ok resp)
            = Except.error ("API Error: " ++ toString resp.status)) := by
  intro resp hok
  constructor
  · intro d hd hne
    simp [RealApi.fetchAPI, hok, hd, jsOr, hne]
  · intro hcase
    rcases hcase with h | h | h <;> simp [RealApi.fetchAPI, hok, h, jsOr]

/-- Witness for C6: a parsed 400 detail is surfaced verbatim; an unparsable
500 body falls back to the generic status message. -/
theorem C6_witness :
    RealApi.fetchAPI (Except.ok resp500) = Except.error "API Error: 500" :=
  (C6_error_normalization resp500 rfl).2 (Or.inl rfl)

/-- C7: checkBackendHealth settles to a boolean on every outcome of the
underlying request: an ok or non-ok response yields its ok flag, any
rejection (connection failure or timeout) yields false, and the cache
always records exactly the returned boolean; isBackendAvailable only reads
the cache and leaves it unchanged. -/
theorem C7_health_totality :
    ∀ (r : Except String (HttpResponse Unit)) (s : HealthState),
      ((checkBackendHealth r s).2.backendAvailable = some (checkBackendHealth r s).1) ∧
      (∀ e, r = Except.error e → (checkBackendHealth r s).1 = false) ∧
      (∀ resp, r = Except.ok resp → (checkBackendHealth r s).1 = resp.ok) ∧
      isBackendAvailable s = (s.backendAvailable, s) := by
  intro r s
  refine ⟨?_, ?_, ?_, rfl⟩
  · cases r <;> rfl
  · intro e he
    subst he
    rfl
  · intro resp hr
    subst hr
    rfl

/-- Witness for C7 at a timed-out health request. -/
theorem C7_witness :
    (checkBackendHealth (Except.error "The operation timed out")
        { backendAvailable := some true }).1 = false :=
  (C7_health_totality (Except.error "The operation timed out")
      { backendAvailable := some true }).2.1 "The operation timed out" rfl

/-- C8: staging rejects a content type outside image/ and video/ with
UnsupportedType, rejects an oversized file with TooLarge carrying the
exceeded ceiling (5 MB for images, 512 MB for videos), and accepts a
conforming 2 MB image/png, producing a non-empty preview handle. -/
theorem C8_media_staging :
    (∀ (ct : String) (sz : Nat),
        strStartsWith ct "image/" = false → strStartsWith ct "video/" = false →
          BackendModel.stage ct sz = Except.error BackendModel.StageError.unsupportedType) ∧
    (∀ (ct : String) (sz : Nat),
        strStartsWith ct "image/" = true → sz > BackendModel.imageSizeLimit →
          BackendModel.stage ct sz
            = Except.error (BackendModel.StageError.tooLarge BackendModel.imageSizeLimit)) ∧
    (∀ (ct : String) (sz : Nat),
        strStartsWith ct "image/" = false → strStartsWith ct "video/" = true →
          sz > BackendModel.videoSizeLimit →
          BackendModel.stage ct sz
            = Except.error (BackendModel.StageError.tooLarge BackendModel.videoSizeLimit)) ∧
    (∃ asset : BackendModel.MediaAsset,
        BackendModel.stage "image/png" (2 * 1024 * 1024) = Except.ok asset ∧
        asset.stagedRef ≠ "") := by
  refine ⟨?_, ?_, ?_, ?_⟩
  · intro ct sz h1 h2
    simp [BackendModel.stage, h1, h2]
  · intro ct sz h1 h2
    simp [BackendModel.stage, h1, h2]
  · intro ct sz h1 h2 h3
    simp [BackendModel.stage, h1, h2, h3]
  · exact ⟨{ kind := BackendModel.MediaKind.image, sizeBytes := 2 * 1024 * 1024
             contentType := "image/png"
             stagedRef := "data:" ++ "image/png" ++ ";preview" },
           rfl, by decide⟩

/-- Witness for C8: a 10 MB text/plain file is UnsupportedType and a 600 MB
video/mp4 file is TooLarge at the 512 MB video ceiling. -/
theorem C8_witness :
    BackendModel.stage "text/plain" (10 * 1024 * 1024)
      = Except.error BackendModel.StageError.unsupportedType ∧
    BackendModel.stage "video/mp4" (600 * 1024 * 1024)
      = Except.error (BackendModel.StageError.tooLarge BackendModel.videoSizeLimit) :=
  ⟨C8_media_staging.1 "text/plain" (10 * 1024 * 1024) (by decide) (by decide),
   C8_media_staging.2.2.1 "video/mp4" (600 * 1024 * 1024) (by decide) (by decide)
     (by decide)⟩

/-- C9 counterexample: the mock deletePost applied to an unknown id 999
resolves successfully with the list unchanged, instead of failing with
NotFound as the claim requires. -/
theorem C9_counterexample :
    MockApi.deletePost [mockPost1] 999 = Except.ok [mockPost1] := by
  rfl

/-- C9 (amended): when the id is found the post is removed unconditionally,
whatever its status, with no call to the remote platform (the operation is
local bookkeeping only); when the id is unknown the mock client resolves
successfully without deleting anything rather than failing with NotFound. -/
theorem C9_remove_semantics :
    (∀ (posts : List Post) (id i : Nat),
        posts.findIdx? (fun p => p.id == id) = some i →
          MockApi.deletePost posts id = Except.ok (posts.eraseIdx i)) ∧
    (∀ (posts : List Post) (id : Nat),
        posts.findIdx? (fun p => p.id == id) = none →
          MockApi.deletePost posts id = Except.ok posts) := by
  constructor
  · intro posts id i h
    simp [MockApi.deletePost, h]
  · intro posts id h
    simp [MockApi.deletePost, h]

/-- Witness for C9: deleting the posted fixture by id removes it even
though its status is posted. -/
theorem C9_witness :
    MockApi.deletePost [mockPost1, mockPost2] 1 = Except.ok [mockPost2] :=
  C9_remove_semantics.1 [mockPost1, mockPost2] 1 0 rfl

end SMM
